import Mathlib

/-!
Verification of the manifest-rewriting / caching proxy core of the
GitShikari vdsrc-prx repository (src/index.js) against its
natural-language specification.

Modelling conventions:
- Manifest text is modelled as its sequence of lines separated by the
  newline character; the two JS rewrite helpers use line-anchored regexes
  with the m flag, so they act independently on each such line.
  Carriage returns and unicode line separators are not modelled.
- JS strings are Lean String; byte buffers are also modelled as String
  (an opaque byte sequence, only stored and compared).
- The WHATWG URL constructor is modelled by a simplified parser
  covering scheme://host[:port][/path][?query][#fragment] forms; all
  other inputs are treated as parse failures (the JS constructor throws).
  Host lowercasing, punycode and default-port elision are not modelled;
  no claim below depends on them.
- The node-cache instance is modelled as an association list from keys
  to entries; the TTL machinery is irrelevant to every claim and is not
  modelled.
- The upstream fetch is an oracle parameter of type String → FetchResult.
  Each request handler returns, besides its HTTP response and the new
  cache state, the list of URLs it passed to fetch, in order.
-/

/-! ### Character-list string helpers -/

/-- Boolean test that the second list starts with the first list, used to
model the JS string method startsWith and anchored regex matches. -/
def charsStartWith : List Char → List Char → Bool
  | [], _ => true
  | _ :: _, [] => false
  | p :: ps, c :: cs => (p == c) && charsStartWith ps cs

/-- Models the JS expression `s.startsWith(p)`. -/
def strStartsWith (p s : String) : Bool :=
  charsStartWith p.toList s.toList

/-- Models the JS expression `s.endsWith(p)`. -/
def strEndsWith (p s : String) : Bool :=
  charsStartWith p.toList.reverse s.toList.reverse

/-- Splits a character list at every occurrence of the separator,
mirroring the JS String.split method with a one-character separator. -/
def splitOnChar (sep : Char) : List Char → List (List Char)
  | [] => [[]]
  | c :: cs =>
    match splitOnChar sep cs with
    | [] => [[c]]
    | l :: ls => if c == sep then [] :: l :: ls else (c :: l) :: ls

/-- Joins character-list fragments with the separator, the inverse of
splitOnChar on separator-free fragments (JS Array.join). -/
def joinWith (sep : Char) : List (List Char) → List Char
  | [] => []
  | [l] => l
  | l :: ls => l ++ sep :: joinWith sep ls

/-- Applies a per-line transformation to every newline-separated line of
the content, the shape shared by both m3u8 rewrite helpers (whose
regexes carry the m flag and are anchored with both anchors). -/
def mapLines (g : String → String) (content : String) : String :=
  String.mk (joinWith '\n' ((splitOnChar '\n' content.toList).map
    (fun l => (g (String.mk l)).toList)))

/-! ### URL model (WHATWG URL constructor, simplified) -/

/-- Result of parsing a URL, with the field meanings of the JS URL class:
protocol includes the trailing colon, search includes the leading
question mark when present, pathname defaults to a single slash. -/
structure UrlObj where
  protocol : String
  hostname : String
  port : String
  pathname : String
  search : String
  hash : String
deriving DecidableEq

/-- Host including the port when one is present (JS URL.host). -/
def UrlObj.host (u : UrlObj) : String :=
  if u.port = "" then u.hostname else u.hostname ++ ":" ++ u.port

/-- Characters allowed in a URL scheme after the first letter. -/
def isSchemeChar (c : Char) : Bool :=
  c.isAlpha || c.isDigit || c == '+' || c == '-' || c == '.'

/-- Parses the part after `scheme://`: authority, then path, query and
fragment. Fails on an empty host, whitespace or userinfo in the host,
and a non-numeric port, as the JS URL constructor does. -/
def parseAfterScheme (protocol : String) (rest : List Char) : Option UrlObj :=
  let auth := rest.takeWhile (fun ch => !(ch == '/' || ch == '?' || ch == '#'))
  let rest2 := rest.dropWhile (fun ch => !(ch == '/' || ch == '?' || ch == '#'))
  let hostCs := auth.takeWhile (fun ch => !(ch == ':'))
  let portPart := auth.dropWhile (fun ch => !(ch == ':'))
  if hostCs.isEmpty then none
  else if hostCs.any (fun ch => ch == ' ' || ch == '@') then none
  else
    let portOk : Bool :=
      match portPart with
      | [] => true
      | _ :: ps => ps.all (fun ch => ch.isDigit)
    if !portOk then none
    else
      let port : String :=
        match portPart with
        | [] => ""
        | _ :: ps => String.mk ps
      let pathCs := rest2.takeWhile (fun ch => !(ch == '?' || ch == '#'))
      let rest3 := rest2.dropWhile (fun ch => !(ch == '?' || ch == '#'))
      let searchCs := rest3.takeWhile (fun ch => !(ch == '#'))
      let hashCs := rest3.dropWhile (fun ch => !(ch == '#'))
      some ⟨protocol, String.mk hostCs, port,
        if pathCs.isEmpty then "/" else String.mk pathCs,
        String.mk searchCs, String.mk hashCs⟩

/-- Models `new URL(s)`: some parsed object on success, none when the JS
constructor would throw. -/
def parseUrl (s : String) : Option UrlObj :=
  match s.toList with
  | [] => none
  | c :: cs =>
    if !c.isAlpha then none
    else
      let schemeCs := (c :: cs).takeWhile isSchemeChar
      let rest := (c :: cs).dropWhile isSchemeChar
      match rest with
      | ':' :: '/' :: '/' :: rest2 =>
        parseAfterScheme (String.mk schemeCs ++ ":") rest2
      | _ => none

/-! ### Manifest rewriters (src/index.js lines 313-358) -/

/-- Per-line action of rewriteM3u8ContentDirect: the regex matches whole
lines starting with the https scheme, and the replacement callback
checks the line is not a comment before substituting. -/
def rewriteLineDirect (line : String) : String :=
  if strStartsWith "https://" line = true then
    if strStartsWith "#" line = true then line
    else "/proxy-stream/" ++ line
  else line

/-- rewriteM3u8ContentDirect from src/index.js lines 314-323. -/
def rewriteM3u8ContentDirect (content : String) : String :=
  mapLines rewriteLineDirect content

/-- Whole-line match condition of the context-aware regex
`(?!#).+\.ts|.+\.m3u8|.+\.jpg|.+\.html` anchored at both ends: the
negative lookahead for the comment marker guards only the first
alternative, and each alternative needs a nonempty stem before its
extension. -/
def ctxLineMatches (line : String) : Bool :=
  (!(strStartsWith "#" line) && decide (4 ≤ line.length) && strEndsWith ".ts" line) ||
  (decide (6 ≤ line.length) && strEndsWith ".m3u8" line) ||
  (decide (5 ≤ line.length) && strEndsWith ".jpg" line) ||
  (decide (6 ≤ line.length) && strEndsWith ".html" line)

/-- Base directory of the original manifest URL, as computed at
src/index.js lines 328-337: protocol, host, the path with its last
segment dropped, and a trailing slash; the empty string when the
original URL fails to parse. -/
def ctxBaseUrl (originalUrl : String) : String :=
  match parseUrl originalUrl with
  | some u =>
    let pathParts := splitOnChar '/' u.pathname.toList
    u.protocol ++ "//" ++ u.host ++ String.mk (joinWith '/' pathParts.dropLast) ++ "/"
  | none => ""

/-- Per-line action of rewriteM3u8Content (src/index.js lines 340-357):
matched lines are resolved as absolute, root-relative or relative and
then prefixed with the proxy path; a root-relative line is returned
unchanged when the original URL fails to parse. -/
def rewriteLineCtx (originalUrl : String) (line : String) : String :=
  if ctxLineMatches line = true then
    if strStartsWith "http" line = true then "/proxy-stream/" ++ line
    else if strStartsWith "/" line = true then
      match parseUrl originalUrl with
      | some u => "/proxy-stream/" ++ (u.protocol ++ "//" ++ u.host ++ line)
      | none => line
    else "/proxy-stream/" ++ (ctxBaseUrl originalUrl ++ line)
  else line

/-- rewriteM3u8Content from src/index.js lines 326-358. -/
def rewriteM3u8Content (content : String) (originalUrl : String) : String :=
  mapLines (rewriteLineCtx originalUrl) content

/-- Per-line direct rewrite as the specification words it: prefix the
proxy path to exactly the lines beginning with the https scheme. Written
for comparison with rewriteLineDirect (refinement check). -/
def rewriteLineDirectSpec (line : String) : String :=
  if strStartsWith "https://" line = true then "/proxy-stream/" ++ line
  else line

/-- Direct rewrite as the specification words it, for comparison with
rewriteM3u8ContentDirect. -/
def rewriteM3u8ContentDirectSpec (content : String) : String :=
  mapLines rewriteLineDirectSpec content

/-! ### Segment cache (node-cache instance tsCache) -/

/-- A cached value: the response buffer and its content type, as stored
at src/index.js lines 152-155 and 268-271. -/
structure CacheEntry where
  data : String
  contentType : Option String
deriving DecidableEq

/-- The cache state: an association list from keys to entries. -/
abbrev Cache := List (String × CacheEntry)

/-- Models tsCache.get. -/
def cacheGet (c : Cache) (k : String) : Option CacheEntry :=
  match c.find? (fun p => p.1 == k) with
  | some p => some p.2
  | none => none

/-- Models tsCache.set: stores or replaces the entry for the key. -/
def cacheSet (c : Cache) (k : String) (v : CacheEntry) : Cache :=
  (k, v) :: c.filter (fun p => !(p.1 == k))

/-! ### Proxy request handlers (src/index.js lines 81-169 and 172-285) -/

/-- Outcome of one call to fetch: an HTTP response with status, status
text, content type and body, or a rejection with an error message. -/
inductive FetchResult where
  | success (status : Nat) (statusText : String) (contentType : Option String) (body : String)
  | failure (message : String)
deriving DecidableEq

/-- The HTTP response a handler sends back to the client. -/
inductive ProxyResponse where
  | jsonError (status : Nat) (error : String)
  | content (contentType : Option String) (body : String)
  | streamed (contentType : Option String)
deriving DecidableEq

/-- Result of one proxied request: the response, the cache state after
the request, and the list of URLs passed to fetch during the request. -/
structure HandlerResult where
  response : ProxyResponse
  cache : Cache
  fetched : List String
deriving DecidableEq

/-- Extension test shared by both handlers (src/index.js lines 90, 148,
201, 264): the cacheable binary categories. -/
def isCacheableUrl (u : String) : Bool :=
  strEndsWith ".jpg" u || strEndsWith ".html" u || strEndsWith ".ts" u

/-- Error message sent when the upstream response is not ok, built as at
src/index.js lines 128 and 167 (and 244, 283): the catch-block text
concatenated with the thrown message carrying status and status text. -/
def upstreamErrMsg (st : Nat) (stx : String) : String :=
  "Failed to proxy stream: " ++ ("Failed to fetch: " ++ (toString st ++ (" " ++ stx)))

/-- Fetch-and-serve phase shared by both handlers (src/index.js lines
125-164 and 241-280). The branch conditions test cacheKeyUrl (the
client-supplied URL), while the fetch itself targets fetchUrl; the two
coincide on the direct endpoint. A non-ok status throws, which the
request boundary converts to a 500 JSON error. Manifest bodies are
rewritten and never cached; cacheable binaries are stored under
cacheKeyUrl; everything else is streamed through. -/
def fetchAndServe (cacheKeyUrl fetchUrl : String) (fetchFn : String → FetchResult)
    (c : Cache) : HandlerResult :=
  match fetchFn fetchUrl with
  | FetchResult.failure msg =>
    ⟨ProxyResponse.jsonError 500 ("Failed to proxy stream: " ++ msg), c, [fetchUrl]⟩
  | FetchResult.success st stx ct body =>
    if 200 ≤ st ∧ st ≤ 299 then
      if strEndsWith "m3u8" cacheKeyUrl = true then
        ⟨ProxyResponse.content ct (rewriteM3u8ContentDirect body), c, [fetchUrl]⟩
      else if isCacheableUrl cacheKeyUrl = true then
        ⟨ProxyResponse.content ct body, cacheSet c cacheKeyUrl ⟨body, ct⟩, [fetchUrl]⟩
      else ⟨ProxyResponse.streamed ct, c, [fetchUrl]⟩
    else ⟨ProxyResponse.jsonError 500 (upstreamErrMsg st stx), c, [fetchUrl]⟩

/-- The GET /proxy-stream/:url(*) handler (src/index.js lines 81-169):
400 on an empty URL, cached entries served without a fetch, otherwise
fetch the client-supplied URL verbatim. -/
def proxyStreamHandler (streamUrl : String) (fetchFn : String → FetchResult)
    (c : Cache) : HandlerResult :=
  if streamUrl = "" then ⟨ProxyResponse.jsonError 400 "Stream URL is required", c, []⟩
  else if isCacheableUrl streamUrl = true then
    match cacheGet c streamUrl with
    | some e => ⟨ProxyResponse.content e.contentType e.data, c, []⟩
    | none => fetchAndServe streamUrl streamUrl fetchFn c
  else fetchAndServe streamUrl streamUrl fetchFn c

/-- Upstream fetch target of the viper endpoint (src/index.js line 191):
the gateway prefix followed by hostname, pathname and search of the
client-supplied URL. -/
def viperTransformUrl (u : UrlObj) : String :=
  "https://embed.su/api/proxy/viper/" ++ u.hostname ++ u.pathname ++ u.search

/-- The GET /viper-proxy/:url(*) handler (src/index.js lines 172-285):
400 on an empty URL, 400 when the client URL fails to parse, cache
lookups and stores keyed by the client-supplied URL, fetches addressed
to the transformed gateway URL. -/
def viperProxyHandler (originalUrl : String) (fetchFn : String → FetchResult)
    (c : Cache) : HandlerResult :=
  if originalUrl = "" then ⟨ProxyResponse.jsonError 400 "Stream URL is required", c, []⟩
  else
    match parseUrl originalUrl with
    | none => ⟨ProxyResponse.jsonError 400 "Invalid URL format: Invalid URL", c, []⟩
    | some u =>
      if isCacheableUrl originalUrl = true then
        match cacheGet c originalUrl with
        | some e => ⟨ProxyResponse.content e.contentType e.data, c, []⟩
        | none => fetchAndServe originalUrl (viperTransformUrl u) fetchFn c
      else fetchAndServe originalUrl (viperTransformUrl u) fetchFn c

/-! ### POST /clear-cache handler (src/index.js lines 63-78) -/

/-- Response of the clear-cache endpoint: a 403 Unauthorized error or a
200 success carrying its message string. -/
inductive ClearResult where
  | unauthorized : ClearResult
  | cleared : String → ClearResult
deriving DecidableEq

/-- The POST /clear-cache handler: the request is rejected unless the
supplied token equals the ADMIN_TOKEN environment variable or the
hardcoded fallback string; on success the prior key count is reported
and the cache is flushed. Absent values are none. -/
def clearCacheHandler (adminTokenEnv : Option String) (token : Option String)
    (c : Cache) : ClearResult × Cache :=
  if token ≠ adminTokenEnv ∧ token ≠ some "admin-token" then
    (ClearResult.unauthorized, c)
  else
    (ClearResult.cleared ("Cache cleared. " ++ (toString c.length ++ " TS segments removed.")), [])

/-! ### Sample fetch oracles used in concrete evaluations -/

/-- Fetch oracle answering 200 with an opaque body for every URL. -/
def fetchOk200 : String → FetchResult :=
  fun _ => FetchResult.success 200 "OK" none "BODY"

/-- Fetch oracle answering 404 Not Found for every URL. -/
def fetchNotFound : String → FetchResult :=
  fun _ => FetchResult.success 404 "Not Found" none ""

/-- Fetch oracle answering 200 with a segment body and content type. -/
def fetchSeg : String → FetchResult :=
  fun _ => FetchResult.success 200 "OK" (some "video/mp2t") "SEGDATA"

/-! ### Helper lemmas -/

theorem str_nil_append (s : String) : "" ++ s = s := rfl

theorem str_append_assoc (a b c : String) : (a ++ b) ++ c = a ++ (b ++ c) :=
  congrArg String.mk (List.append_assoc a.data b.data c.data)

/-- When l starts with the longer pattern p, testing l against any
pattern q no longer than p is the same as testing p against q. -/
theorem charsStartWith_mono : ∀ (q p l : List Char), q.length ≤ p.length →
    charsStartWith p l = true → charsStartWith q l = charsStartWith q p := by
  intro q
  induction q with
  | nil => intro p l _ _; rfl
  | cons a as ih =>
    intro p l hlen hp
    cases p with
    | nil => exact absurd hlen (by simp)
    | cons b bs =>
      cases l with
      | nil => exact absurd hp (by simp [charsStartWith])
      | cons c cs =>
        simp only [charsStartWith, Bool.and_eq_true] at hp
        obtain ⟨hbc, hrest⟩ := hp
        have hbc2 : b = c := eq_of_beq hbc
        subst hbc2
        simp only [charsStartWith]
        rw [ih bs cs (Nat.succ_le_succ_iff.mp hlen) hrest]

theorem strStartsWith_https_not_hash (s : String)
    (h : strStartsWith "https://" s = true) : strStartsWith "#" s = false := by
  calc strStartsWith "#" s
      = charsStartWith "#".toList s.toList := rfl
    _ = charsStartWith "#".toList "https://".toList :=
        charsStartWith_mono "#".toList "https://".toList s.toList (by decide) h
    _ = false := by decide

theorem strStartsWith_hash_not_https (s : String)
    (h : strStartsWith "#" s = true) : strStartsWith "https://" s = false := by
  cases hb : strStartsWith "https://" s with
  | false => rfl
  | true =>
    have h2 := strStartsWith_https_not_hash s hb
    rw [h] at h2
    exact absurd h2 (by decide)

theorem strStartsWith_http_not_https (s : String)
    (h : strStartsWith "http://" s = true) : strStartsWith "https://" s = false := by
  cases hb : strStartsWith "https://" s with
  | false => rfl
  | true =>
    have h2 : strStartsWith "http://" s = false := by
      calc strStartsWith "http://" s
          = charsStartWith "http://".toList s.toList := rfl
        _ = charsStartWith "http://".toList "https://".toList :=
            charsStartWith_mono "http://".toList "https://".toList s.toList (by decide) hb
        _ = false := by decide
    rw [h] at h2
    exact absurd h2 (by decide)

/-- The per-line direct rewrite agrees with its specification reading:
the comment check inside the replacement callback is unreachable. -/
theorem rewriteLineDirect_eq_spec (line : String) :
    rewriteLineDirect line = rewriteLineDirectSpec line := by
  unfold rewriteLineDirect rewriteLineDirectSpec
  by_cases h : strStartsWith "https://" line = true
  · rw [if_pos h, if_pos h, if_neg]
    rw [strStartsWith_https_not_hash line h]
    exact fun hx => absurd hx (by decide)
  · rw [if_neg h, if_neg h]

/-- Every fetch-and-serve call records exactly one fetch of its target,
and touches the cache only to store an entry under its key argument,
only when cacheKeyUrl is a cacheable binary and not a manifest. -/
theorem fetchAndServe_spec (k t : String) (f : String → FetchResult) (c : Cache) :
    ((fetchAndServe k t f c).cache = c ∨
      (isCacheableUrl k = true ∧ strEndsWith "m3u8" k = false ∧
        ∃ e, (fetchAndServe k t f c).cache = cacheSet c k e)) ∧
    (fetchAndServe k t f c).fetched = [t] := by
  unfold fetchAndServe
  cases hf : f t with
  | failure msg => exact ⟨Or.inl rfl, rfl⟩
  | success st stx ct body =>
    simp only []
    by_cases hok : 200 ≤ st ∧ st ≤ 299
    · rw [if_pos hok]
      by_cases hm : strEndsWith "m3u8" k = true
      · rw [if_pos hm]; exact ⟨Or.inl rfl, rfl⟩
      · rw [if_neg hm]
        by_cases hc : isCacheableUrl k = true
        · rw [if_pos hc]
          exact ⟨Or.inr ⟨hc, Bool.eq_false_iff.mpr hm, ⟨body, ct⟩, rfl⟩, rfl⟩
        · rw [if_neg hc]; exact ⟨Or.inl rfl, rfl⟩
    · rw [if_neg hok]; exact ⟨Or.inl rfl, rfl⟩

/-- A non-ok upstream status makes fetch-and-serve answer the 500 error
carrying the status, leaving the cache unchanged, after a single fetch. -/
theorem fetchAndServe_err (k t : String) (f : String → FetchResult) (c : Cache)
    (st : Nat) (stx : String) (ct : Option String) (body : String)
    (hf : f t = FetchResult.success st stx ct body)
    (hbad : ¬ (200 ≤ st ∧ st ≤ 299)) :
    fetchAndServe k t f c = ⟨ProxyResponse.jsonError 500 (upstreamErrMsg st stx), c, [t]⟩ := by
  unfold fetchAndServe
  rw [hf]
  simp only []
  rw [if_neg hbad]

/-- Every JSON error produced by the fetch-and-serve phase has status 500. -/
theorem fetchAndServe_response_500 (k t : String) (f : String → FetchResult)
    (c : Cache) (st : Nat) (msg : String)
    (h : (fetchAndServe k t f c).response = ProxyResponse.jsonError st msg) : st = 500 := by
  unfold fetchAndServe at h
  cases hf : f t with
  | failure m =>
    rw [hf] at h
    exact (ProxyResponse.jsonError.injEq _ _ _ _).mp h.symm |>.1
  | success s2 stx ct body =>
    rw [hf] at h
    simp only [] at h
    by_cases hok : 200 ≤ s2 ∧ s2 ≤ 299
    · rw [if_pos hok] at h
      by_cases hm : strEndsWith "m3u8" k = true
      · rw [if_pos hm] at h; exact absurd h (by simp)
      · rw [if_neg hm] at h
        by_cases hc : isCacheableUrl k = true
        · rw [if_pos hc] at h; exact absurd h (by simp)
        · rw [if_neg hc] at h; exact absurd h (by simp)
    · rw [if_neg hok] at h
      exact (ProxyResponse.jsonError.injEq _ _ _ _).mp h.symm |>.1

/-- Cache discipline of the direct endpoint: either the cache is left
unchanged, or one entry is stored under the client-supplied URL, which
is also the only URL fetched, and only for a cacheable non-manifest
extension. -/
theorem proxyStream_cache_spec (u : String) (f : String → FetchResult) (c : Cache) :
    (proxyStreamHandler u f c).cache = c ∨
    (isCacheableUrl u = true ∧ strEndsWith "m3u8" u = false ∧
      (proxyStreamHandler u f c).fetched = [u] ∧
      ∃ e, (proxyStreamHandler u f c).cache = cacheSet c u e) := by
  unfold proxyStreamHandler
  by_cases h0 : u = ""
  · rw [if_pos h0]; exact Or.inl rfl
  · rw [if_neg h0]
    by_cases hc : isCacheableUrl u = true
    · rw [if_pos hc]
      cases hg : cacheGet c u with
      | some e => exact Or.inl rfl
      | none =>
        have hs := fetchAndServe_spec u u f c
        rcases hs.1 with h | ⟨h1, h2, e, h3⟩
        · exact Or.inl h
        · exact Or.inr ⟨h1, h2, hs.2, e, h3⟩
    · rw [if_neg hc]
      have hs := fetchAndServe_spec u u f c
      rcases hs.1 with h | ⟨h1, h2, e, h3⟩
      · exact Or.inl h
      · exact Or.inr ⟨h1, h2, hs.2, e, h3⟩

/-- Cache discipline of the viper endpoint: either the cache is left
unchanged, or one entry is stored under the client-supplied URL while
the only URL fetched is the transformed gateway URL. -/
theorem viper_cache_spec (u : String) (f : String → FetchResult) (c : Cache) :
    (viperProxyHandler u f c).cache = c ∨
    (isCacheableUrl u = true ∧ strEndsWith "m3u8" u = false ∧
      ∃ e obj, parseUrl u = some obj ∧
        (viperProxyHandler u f c).cache = cacheSet c u e ∧
        (viperProxyHandler u f c).fetched = [viperTransformUrl obj]) := by
  unfold viperProxyHandler
  by_cases h0 : u = ""
  · rw [if_pos h0]; exact Or.inl rfl
  · rw [if_neg h0]
    cases hp : parseUrl u with
    | none => exact Or.inl rfl
    | some obj =>
      simp only []
      by_cases hc : isCacheableUrl u = true
      · rw [if_pos hc]
        cases hg : cacheGet c u with
        | some e => exact Or.inl rfl
        | none =>
          have hs := fetchAndServe_spec u (viperTransformUrl obj) f c
          rcases hs.1 with h | ⟨h1, h2, e, h3⟩
          · exact Or.inl h
          · exact Or.inr ⟨h1, h2, e, obj, rfl, h3, hs.2⟩
      · rw [if_neg hc]
        have hs := fetchAndServe_spec u (viperTransformUrl obj) f c
        rcases hs.1 with h | ⟨h1, h2, e, h3⟩
        · exact Or.inl h
        · exact Or.inr ⟨h1, h2, e, obj, rfl, h3, hs.2⟩

/-- The viper endpoint either performs no fetch or fetches exactly the
transformed gateway URL of the parsed client URL. -/
theorem viper_fetched_spec (u : String) (f : String → FetchResult) (c : Cache)
    (obj : UrlObj) (hp : parseUrl u = some obj) :
    (viperProxyHandler u f c).fetched = [] ∨
    (viperProxyHandler u f c).fetched = [viperTransformUrl obj] := by
  unfold viperProxyHandler
  by_cases h0 : u = ""
  · rw [if_pos h0]; exact Or.inl rfl
  · rw [if_neg h0]
    rw [hp]
    simp only []
    by_cases hc : isCacheableUrl u = true
    · rw [if_pos hc]
      cases hg : cacheGet c u with
      | some e => exact Or.inl rfl
      | none => exact Or.inr (fetchAndServe_spec u (viperTransformUrl obj) f c).2
    · rw [if_neg hc]
      exact Or.inr (fetchAndServe_spec u (viperTransformUrl obj) f c).2

/-- With a nonempty URL, every JSON error the direct endpoint answers
has status 500: this endpoint never reports a 400 for a malformed URL. -/
theorem proxyStream_response_500 (u : String) (f : String → FetchResult) (c : Cache)
    (st : Nat) (msg : String) (h0 : u ≠ "")
    (h : (proxyStreamHandler u f c).response = ProxyResponse.jsonError st msg) : st = 500 := by
  unfold proxyStreamHandler at h
  rw [if_neg h0] at h
  by_cases hc : isCacheableUrl u = true
  · rw [if_pos hc] at h
    cases hg : cacheGet c u with
    | some e => rw [hg] at h; exact absurd h (by simp)
    | none => rw [hg] at h; exact fetchAndServe_response_500 u u f c st msg h
  · rw [if_neg hc] at h
    exact fetchAndServe_response_500 u u f c st msg h

/-! ### Claims -/

/-- C1 (counterexample): the claim that every cache entry is stored
under the literal upstream URL that was fetched fails on the viper
endpoint: a segment request stores its entry under the client-supplied
URL while the URL actually fetched is the transformed gateway URL, and
the two differ. -/
theorem C1_counterexample :
    (viperProxyHandler "https://stormyclouds42.xyz/file2/seg.ts" fetchSeg []).cache =
      [("https://stormyclouds42.xyz/file2/seg.ts", ⟨"SEGDATA", some "video/mp2t"⟩)] ∧
    (viperProxyHandler "https://stormyclouds42.xyz/file2/seg.ts" fetchSeg []).fetched =
      ["https://embed.su/api/proxy/viper/stormyclouds42.xyz/file2/seg.ts"] ∧
    ("https://stormyclouds42.xyz/file2/seg.ts" : String) ≠
      "https://embed.su/api/proxy/viper/stormyclouds42.xyz/file2/seg.ts" :=
  ⟨by decide, by decide, by decide⟩

/-- C1 (amended): every cache entry is stored under the client-supplied
URL. On the pass-through endpoint that key equals the only URL fetched;
on the viper endpoint the only URL fetched is the transformed gateway
URL, so the key and the fetched upstream URL differ whenever the
transform changes the URL. -/
theorem C1_amended_thm (u : String) (f : String → FetchResult) (c : Cache) :
    ((proxyStreamHandler u f c).cache = c ∨
      (isCacheableUrl u = true ∧ strEndsWith "m3u8" u = false ∧
        (proxyStreamHandler u f c).fetched = [u] ∧
        ∃ e, (proxyStreamHandler u f c).cache = cacheSet c u e)) ∧
    ((viperProxyHandler u f c).cache = c ∨
      (isCacheableUrl u = true ∧ strEndsWith "m3u8" u = false ∧
        ∃ e obj, parseUrl u = some obj ∧
          (viperProxyHandler u f c).cache = cacheSet c u e ∧
          (viperProxyHandler u f c).fetched = [viperTransformUrl obj])) :=
  ⟨proxyStream_cache_spec u f c, viper_cache_spec u f c⟩

/-- C2 (counterexample): the context-aware rewrite does not keep every
line beginning with the comment marker byte-for-byte: a comment line
ending in the manifest extension is matched by the unguarded second
regex alternative and substituted. -/
theorem C2_counterexample :
    rewriteM3u8Content "#a.m3u8" "https://h.example/dir/x.m3u8" =
      "/proxy-stream/https://h.example/dir/#a.m3u8" ∧
    rewriteM3u8Content "#a.m3u8" "https://h.example/dir/x.m3u8" ≠ "#a.m3u8" :=
  ⟨by decide, by decide⟩

/-- C2 (amended): the direct mode leaves every line that does not start
with the https scheme, in particular every comment line and every blank
line, byte-for-byte unchanged; the context-aware mode leaves every line
its regex does not match unchanged, but its comment guard covers only
the first alternative, so a comment line is guaranteed unchanged only
when it does not end in the m3u8, jpg, or html extensions. -/
theorem C2_amended_thm (u line : String) :
    (strStartsWith "https://" line = false → rewriteLineDirect line = line) ∧
    (strStartsWith "#" line = true → rewriteLineDirect line = line) ∧
    (ctxLineMatches line = false → rewriteLineCtx u line = line) ∧
    (strStartsWith "#" line = true → strEndsWith ".m3u8" line = false →
      strEndsWith ".jpg" line = false → strEndsWith ".html" line = false →
      rewriteLineCtx u line = line) := by
  refine ⟨?_, ?_, ?_, ?_⟩
  · intro h
    unfold rewriteLineDirect
    rw [if_neg (by simp [h])]
  · intro h
    unfold rewriteLineDirect
    rw [if_neg (by simp [strStartsWith_hash_not_https line h])]
  · intro h
    unfold rewriteLineCtx
    rw [if_neg (by simp [h])]
  · intro h h1 h2 h3
    have hm : ctxLineMatches line = false := by
      unfold ctxLineMatches
      rw [h, h1, h2, h3]
      simp
    unfold rewriteLineCtx
    rw [if_neg (by simp [hm])]

/-- C2 (witness): a directive line is preserved by both modes. -/
theorem C2_amended_witness :
    strStartsWith "#" "#EXT-X-ENDLIST" = true ∧
    rewriteLineDirect "#EXT-X-ENDLIST" = "#EXT-X-ENDLIST" ∧
    rewriteLineCtx "https://h/x.m3u8" "#EXT-X-ENDLIST" = "#EXT-X-ENDLIST" :=
  ⟨by decide,
   (C2_amended_thm "https://h/x.m3u8" "#EXT-X-ENDLIST").2.1 (by decide),
   (C2_amended_thm "https://h/x.m3u8" "#EXT-X-ENDLIST").2.2.2
     (by decide) (by decide) (by decide) (by decide)⟩

/-- C3 (counterexample): a token differing from the configured admin
secret is nevertheless accepted when it equals the hardcoded fallback,
and the cache is flushed, so 403 does not hold iff the token mismatches
the configured secret. -/
theorem C3_counterexample :
    clearCacheHandler (some "s3cret") (some "admin-token")
        [("https://h/a.ts", ⟨"D", none⟩)] =
      (ClearResult.cleared "Cache cleared. 1 TS segments removed.", []) ∧
    (some "admin-token" : Option String) ≠ some "s3cret" :=
  ⟨by decide, by decide⟩

/-- C3 (amended): the clear-cache operation answers Unauthorized iff the
token matches neither the configured admin secret nor the hardcoded
fallback token; an unauthorized call leaves every entry intact, and an
authorized call empties the cache and reports the prior entry count. -/
theorem C3_amended_thm (env token : Option String) (c : Cache) :
    ((clearCacheHandler env token c).1 = ClearResult.unauthorized ↔
      (token ≠ env ∧ token ≠ some "admin-token")) ∧
    (token ≠ env ∧ token ≠ some "admin-token" →
      clearCacheHandler env token c = (ClearResult.unauthorized, c)) ∧
    ((token = env ∨ token = some "admin-token") →
      clearCacheHandler env token c =
        (ClearResult.cleared
          ("Cache cleared. " ++ (toString c.length ++ " TS segments removed.")), [])) := by
  by_cases h : token ≠ env ∧ token ≠ some "admin-token"
  · refine ⟨?_, fun _ => ?_, fun hor => ?_⟩
    · unfold clearCacheHandler
      rw [if_pos h]
      exact ⟨fun _ => h, fun _ => rfl⟩
    · unfold clearCacheHandler
      rw [if_pos h]
    · rcases hor with h1 | h2
      · exact absurd h1 h.1
      · exact absurd h2 h.2
  · refine ⟨?_, fun hh => absurd hh h, fun _ => ?_⟩
    · unfold clearCacheHandler
      rw [if_neg h]
      constructor
      · intro hx
        exact ClearResult.noConfusion hx
      · intro hx
        exact absurd hx h
    · unfold clearCacheHandler
      rw [if_neg h]

/-- C3 (witness): with no configured secret, a non-fallback token is
rejected and the cache is left intact. -/
theorem C3_amended_witness :
    ((some "s" : Option String) ≠ none ∧ (some "s" : Option String) ≠ some "admin-token") ∧
    clearCacheHandler none (some "s") [("k", ⟨"d", none⟩)] =
      (ClearResult.unauthorized, [("k", ⟨"d", none⟩)]) :=
  ⟨by decide, (C3_amended_thm none (some "s") [("k", ⟨"d", none⟩)]).2.1 (by decide)⟩

/-- C4 (counterexample): a bare absolute URL line with the http scheme
starts with a scheme and is not a comment, yet the direct rewrite leaves
it unchanged instead of substituting the proxy-relative reference. -/
theorem C4_counterexample :
    rewriteM3u8ContentDirect "http://cdn.example/a.ts" = "http://cdn.example/a.ts" ∧
    rewriteM3u8ContentDirect "http://cdn.example/a.ts" ≠
      "/proxy-stream/http://cdn.example/a.ts" :=
  ⟨by decide, by decide⟩

/-- C4 (amended): the direct mode replaces exactly the lines beginning
with the https scheme, prefixing the proxy path to the full original
URL; every other line, including absolute URLs with any other scheme, is
left unchanged; the quoted manifest scenario rewrites as stated. -/
theorem C4_amended_thm :
    (∀ line, strStartsWith "https://" line = true →
      rewriteLineDirect line = "/proxy-stream/" ++ line) ∧
    (∀ line, strStartsWith "https://" line = false → rewriteLineDirect line = line) ∧
    rewriteM3u8ContentDirect "#EXTM3U\nhttps://cdn.example/a.ts\n#EXT-X-ENDLIST" =
      "#EXTM3U\n/proxy-stream/https://cdn.example/a.ts\n#EXT-X-ENDLIST" := by
  refine ⟨?_, ?_, by decide⟩
  · intro line h
    unfold rewriteLineDirect
    rw [if_pos h, if_neg (by simp [strStartsWith_https_not_hash line h])]
  · intro line h
    unfold rewriteLineDirect
    rw [if_neg (by simp [h])]

/-- C4 (witness): an https segment line is rewritten to the
proxy-relative form. -/
theorem C4_amended_witness :
    strStartsWith "https://" "https://cdn.example/a.ts" = true ∧
    rewriteLineDirect "https://cdn.example/a.ts" = "/proxy-stream/https://cdn.example/a.ts" :=
  ⟨by decide, C4_amended_thm.1 "https://cdn.example/a.ts" (by decide)⟩

/-- C5 (counterexample): a client URL that fails to parse does not make
the pass-through endpoint answer 400; the handler passes the raw string
to fetch (the fetch list is nonempty) and here even answers 200 when the
oracle succeeds. -/
theorem C5_counterexample :
    parseUrl "||notaurl" = none ∧
    proxyStreamHandler "||notaurl" fetchOk200 [] =
      ⟨ProxyResponse.streamed none, [], ["||notaurl"]⟩ :=
  ⟨by decide, by decide⟩

/-- C5 (amended): only the host-rewriting variant rejects an unparseable
client URL with a 400; the pass-through variant never answers a 400 for
a nonempty URL (its JSON errors all carry status 500), because it hands
the raw string to fetch without parsing it. -/
theorem C5_amended_thm (u : String) (f : String → FetchResult) (c : Cache) :
    (u ≠ "" → parseUrl u = none →
      viperProxyHandler u f c =
        ⟨ProxyResponse.jsonError 400 "Invalid URL format: Invalid URL", c, []⟩) ∧
    (u ≠ "" → ∀ st msg,
      (proxyStreamHandler u f c).response = ProxyResponse.jsonError st msg → st = 500) := by
  constructor
  · intro h0 hp
    unfold viperProxyHandler
    rw [if_neg h0, hp]
  · intro h0 st msg h
    exact proxyStream_response_500 u f c st msg h0 h

/-- C5 (witness): the viper endpoint rejects an unparseable URL with the
400 error. -/
theorem C5_amended_witness :
    ("||notaurl" ≠ "") ∧ parseUrl "||notaurl" = none ∧
    viperProxyHandler "||notaurl" fetchOk200 [] =
      ⟨ProxyResponse.jsonError 400 "Invalid URL format: Invalid URL", [], []⟩ :=
  ⟨by decide, by decide,
   (C5_amended_thm "||notaurl" fetchOk200 []).1 (by decide) (by decide)⟩

/-- C6 (counterexample): with an unparseable original manifest URL, a
relative line that needs the base URL for resolution is not left
unmodified: it is rewritten against the empty base. -/
theorem C6_counterexample :
    rewriteM3u8Content "seg.ts" "notaurl" = "/proxy-stream/seg.ts" ∧
    rewriteM3u8Content "seg.ts" "notaurl" ≠ "seg.ts" :=
  ⟨by decide, by decide⟩

/-- C6 (amended): when the original manifest URL fails to parse, a
matched root-relative line is emitted unchanged, while a matched
relative line is still rewritten with an empty base directory and a
matched absolute line is rewritten as usual; unmatched lines are
unaffected, and the rewrite of the rest of the manifest never fails. -/
theorem C6_amended_thm (originalUrl line : String)
    (hp : parseUrl originalUrl = none) (hm : ctxLineMatches line = true) :
    rewriteLineCtx originalUrl line =
      if strStartsWith "http" line = true then "/proxy-stream/" ++ line
      else if strStartsWith "/" line = true then line
      else "/proxy-stream/" ++ line := by
  unfold rewriteLineCtx
  rw [if_pos hm]
  by_cases h1 : strStartsWith "http" line = true
  · rw [if_pos h1, if_pos h1]
  · rw [if_neg h1, if_neg h1]
    by_cases h2 : strStartsWith "/" line = true
    · rw [if_pos h2, if_pos h2, hp]
    · rw [if_neg h2, if_neg h2]
      have hb : ctxBaseUrl originalUrl = "" := by
        unfold ctxBaseUrl
        rw [hp]
      rw [hb, str_nil_append]

/-- C6 (witness): a root-relative segment line is left unchanged when
the original URL does not parse. -/
theorem C6_amended_witness :
    parseUrl "notaurl" = none ∧ ctxLineMatches "/seg.ts" = true ∧
    rewriteLineCtx "notaurl" "/seg.ts" = "/seg.ts" :=
  ⟨by decide, by decide, by
    rw [C6_amended_thm "notaurl" "/seg.ts" (by decide) (by decide)]
    decide⟩

/-- C7 (confirmed): every URL the viper endpoint fetches is the gateway
address built from the fixed viper route followed by the hostname, path
and query of the parsed client URL, and the quoted scenario produces
exactly the stated fetch target. -/
theorem C7_thm (u : String) (f : String → FetchResult) (c : Cache) (obj : UrlObj)
    (hp : parseUrl u = some obj) :
    (∀ t, t ∈ (viperProxyHandler u f c).fetched →
      t = "https://embed.su/api/proxy/viper/" ++ obj.hostname ++ obj.pathname ++ obj.search) ∧
    (viperProxyHandler "https://stormyclouds42.xyz/file2/seg.ts?x=1" f c).fetched =
      ["https://embed.su/api/proxy/viper/stormyclouds42.xyz/file2/seg.ts?x=1"] := by
  constructor
  · intro t ht
    rcases viper_fetched_spec u f c obj hp with h | h
    · rw [h] at ht
      exact absurd ht (List.not_mem_nil t)
    · rw [h] at ht
      rw [List.mem_singleton] at ht
      exact ht
  · have hpsc : parseUrl "https://stormyclouds42.xyz/file2/seg.ts?x=1" =
        some ⟨"https:", "stormyclouds42.xyz", "", "/file2/seg.ts", "?x=1", ""⟩ := by decide
    unfold viperProxyHandler
    rw [if_neg (by decide : ¬("https://stormyclouds42.xyz/file2/seg.ts?x=1" = "")), hpsc]
    simp only []
    rw [if_neg (by decide :
      ¬(isCacheableUrl "https://stormyclouds42.xyz/file2/seg.ts?x=1" = true))]
    exact (fetchAndServe_spec "https://stormyclouds42.xyz/file2/seg.ts?x=1"
      (viperTransformUrl ⟨"https:", "stormyclouds42.xyz", "", "/file2/seg.ts", "?x=1", ""⟩)
      f c).2

/-- C7 (witness): the scenario URL parses and is fetched through the
gateway address. -/
theorem C7_witness :
    parseUrl "https://stormyclouds42.xyz/file2/seg.ts?x=1" =
      some ⟨"https:", "stormyclouds42.xyz", "", "/file2/seg.ts", "?x=1", ""⟩ ∧
    (viperProxyHandler "https://stormyclouds42.xyz/file2/seg.ts?x=1" fetchOk200 []).fetched =
      ["https://embed.su/api/proxy/viper/stormyclouds42.xyz/file2/seg.ts?x=1"] :=
  ⟨by decide,
   (C7_thm "https://stormyclouds42.xyz/file2/seg.ts?x=1" fetchOk200 []
     ⟨"https:", "stormyclouds42.xyz", "", "/file2/seg.ts", "?x=1", ""⟩ (by decide)).2⟩

/-- C8 (confirmed): a non-2xx upstream status makes either endpoint
answer the 500 error whose message embeds the status code, with the
cache left exactly as it was and the fetch performed exactly once. -/
theorem C8_thm (u : String) (f : String → FetchResult) (c : Cache) (st : Nat)
    (stx : String) (ct : Option String) (body : String)
    (hne : u ≠ "") (hbad : ¬ (200 ≤ st ∧ st ≤ 299)) :
    (f u = FetchResult.success st stx ct body →
      (isCacheableUrl u = true → cacheGet c u = none) →
      proxyStreamHandler u f c =
        ⟨ProxyResponse.jsonError 500 (upstreamErrMsg st stx), c, [u]⟩) ∧
    (∀ obj, parseUrl u = some obj →
      f (viperTransformUrl obj) = FetchResult.success st stx ct body →
      (isCacheableUrl u = true → cacheGet c u = none) →
      viperProxyHandler u f c =
        ⟨ProxyResponse.jsonError 500 (upstreamErrMsg st stx), c, [viperTransformUrl obj]⟩) ∧
    (∃ a b, upstreamErrMsg st stx = a ++ (toString st ++ b)) := by
  refine ⟨?_, ?_, ?_⟩
  · intro hf hg
    unfold proxyStreamHandler
    rw [if_neg hne]
    by_cases hc : isCacheableUrl u = true
    · rw [if_pos hc, hg hc]
      exact fetchAndServe_err u u f c st stx ct body hf hbad
    · rw [if_neg hc]
      exact fetchAndServe_err u u f c st stx ct body hf hbad
  · intro obj hp hf hg
    unfold viperProxyHandler
    rw [if_neg hne, hp]
    simp only []
    by_cases hc : isCacheableUrl u = true
    · rw [if_pos hc, hg hc]
      exact fetchAndServe_err u (viperTransformUrl obj) f c st stx ct body hf hbad
    · rw [if_neg hc]
      exact fetchAndServe_err u (viperTransformUrl obj) f c st stx ct body hf hbad
  · refine ⟨"Failed to proxy stream: " ++ "Failed to fetch: ", " " ++ stx, ?_⟩
    unfold upstreamErrMsg
    rw [str_append_assoc]

/-- C8 (witness): a 404 on a segment fetch yields the 500 error with the
status in the message and an unchanged empty cache. -/
theorem C8_witness :
    proxyStreamHandler "https://h/a.ts" fetchNotFound [] =
      ⟨ProxyResponse.jsonError 500 (upstreamErrMsg 404 "Not Found"), [], ["https://h/a.ts"]⟩ ∧
    (∃ a b, upstreamErrMsg 404 "Not Found" = a ++ (toString 404 ++ b)) := by
  have h := C8_thm "https://h/a.ts" fetchNotFound [] 404 "Not Found" none ""
    (by decide) (by decide)
  exact ⟨h.1 rfl (fun _ => rfl), h.2.2⟩

/-- C9 (confirmed): whenever a request through either endpoint changes
the cache, the requested URL has one of the cacheable binary extensions
and is not a manifest; hence manifest content is never inserted in the
cache. -/
theorem C9_thm (u : String) (f : String → FetchResult) (c : Cache)
    (h : (proxyStreamHandler u f c).cache ≠ c ∨ (viperProxyHandler u f c).cache ≠ c) :
    isCacheableUrl u = true ∧ strEndsWith "m3u8" u = false := by
  rcases h with h | h
  · rcases proxyStream_cache_spec u f c with hc | ⟨h1, h2, _, _⟩
    · exact absurd hc h
    · exact ⟨h1, h2⟩
  · rcases viper_cache_spec u f c with hc | ⟨h1, h2, _⟩
    · exact absurd hc h
    · exact ⟨h1, h2⟩

/-- C9 (witness): a segment request that populates the cache has a
cacheable non-manifest URL. -/
theorem C9_witness :
    ((proxyStreamHandler "https://h/a.ts" fetchOk200 []).cache ≠ [] ∨
      (viperProxyHandler "https://h/a.ts" fetchOk200 []).cache ≠ []) ∧
    (isCacheableUrl "https://h/a.ts" = true ∧ strEndsWith "m3u8" "https://h/a.ts" = false) :=
  ⟨Or.inl (by decide), C9_thm "https://h/a.ts" fetchOk200 [] (Or.inl (by decide))⟩

/-- C10 (confirmed): the direct rewriter is extensionally equal to the
simple per-line function that prefixes the proxy path to exactly the
lines beginning with the https scheme; the comment check inside its
callback is unreachable because an https line never starts with the
comment marker, and lines with any other scheme pass through unchanged. -/
theorem C10_thm :
    (∀ content, rewriteM3u8ContentDirect content = rewriteM3u8ContentDirectSpec content) ∧
    (∀ line, strStartsWith "https://" line = true → strStartsWith "#" line = false) ∧
    (∀ line, strStartsWith "http://" line = true → rewriteLineDirect line = line) := by
  refine ⟨?_, ?_, ?_⟩
  · intro content
    unfold rewriteM3u8ContentDirect rewriteM3u8ContentDirectSpec mapLines
    rw [show (fun l => (rewriteLineDirect (String.mk l)).toList) =
        (fun l => (rewriteLineDirectSpec (String.mk l)).toList) from
      funext fun l => by rw [rewriteLineDirect_eq_spec]]
  · exact fun line h => strStartsWith_https_not_hash line h
  · intro line h
    unfold rewriteLineDirect
    rw [if_neg (by simp [strStartsWith_http_not_https line h])]

/-- C10 (witness): an http line passes through the direct rewriter
unmodified. -/
theorem C10_witness :
    strStartsWith "http://" "http://cdn.example/a.ts" = true ∧
    rewriteLineDirect "http://cdn.example/a.ts" = "http://cdn.example/a.ts" :=
  ⟨by decide, C10_thm.2.2 "http://cdn.example/a.ts" (by decide)⟩
